import Mathlib

/-!
Verification of the Boost.Beast HTTP micro-server (`src/main.cpp`).

The server exposes two routes. `handle_request` (main.cpp:19-36) maps the
request target to a body string; `session::do_write` (main.cpp:70-97)
derives the status from that body, disables keep-alive, writes one
response and shuts the send half of the socket down. `main`
(main.cpp:158-230) builds the listener; every setup failure is thrown as
an exception and caught in `main`, which prints "Fatal Error: ..." and
returns normally. We embed these functions shallowly and prove the
specified properties about them.
-/

/-- A parsed HTTP request, as Beast hands it to `handle_request`:
method, target (the full request-target string, query included),
version (10 for HTTP/1.0, 11 for HTTP/1.1) and the header fields in the
order they appear in the request. -/
structure Request where
  method : String
  target : String
  version : Nat
  headers : List (String × String)
deriving Repr, DecidableEq

/-- The `/headers` loop of main.cpp:28-32: starting from the
accumulator, append one `name: value\n` line per header field. -/
def headersLoop (acc : String) : List (String × String) → String
  | [] => acc
  | h :: t => headersLoop (acc ++ (h.1 ++ ": " ++ h.2 ++ "\n")) t

/-- The router, main.cpp:19-36: `/hello` yields `"hello\n"`,
`/headers` yields the header echo, anything else yields `"Not Found"`. -/
def handle_request (req : Request) : String :=
  if req.target = "/hello" then "hello\n"
  else if req.target = "/headers" then headersLoop "" req.headers
  else "Not Found"

/-- The response as `session::do_write` builds it (main.cpp:76-90). -/
structure Response where
  version : Nat
  keep_alive : Bool
  status : Nat
  server : String
  body : String
deriving Repr, DecidableEq

/-- `session::do_write`, main.cpp:74-90: the body comes from
`handle_request`; the status is 404 exactly when the body is the string
`"Not Found"`, otherwise 200; keep-alive is disabled and the Server
header is set. -/
def do_write (req : Request) : Response :=
  let body := handle_request req
  { version := req.version
  , keep_alive := false
  , status := if body = "Not Found" then 404 else 200
  , server := "Boost.Beast Server"
  , body := body }

/-- The Connection field Beast's serializer emits for a message that
starts with no Connection field, as a function of the message version
and the `keep_alive` setting: for HTTP/1.1 (version 11 and above) the
default is keep-alive, so `keep_alive(false)` inserts the `close`
token and `keep_alive(true)` inserts nothing; for HTTP/1.0 the default
is close, so `keep_alive(true)` inserts the `keep-alive` token and
`keep_alive(false)` inserts nothing. -/
def connectionField (version : Nat) (keepAlive : Bool) :
    List (String × String) :=
  if 11 ≤ version then
    if keepAlive then [] else [("Connection", "close")]
  else
    if keepAlive then [("Connection", "keep-alive")] else []

/-- The header fields the serializer emits for a response: the
version-dependent Connection field produced by `keep_alive(false)`
(main.cpp:76-77 copies the request version into the response first),
the Server field set at main.cpp:88, and the Content-Length set by
`prepare_payload`. -/
def serializedHeaders (r : Response) : List (String × String) :=
  connectionField r.version r.keep_alive
    ++ [("Server", r.server), ("Content-Length", toString r.body.length)]

/-- The socket operations a session performs after its read completes
(main.cpp:58-97). -/
inductive SocketOp where
  | writeResponse (r : Response)
  | shutdownSend
deriving Repr, DecidableEq

/-- Whether a socket operation writes a response. -/
def SocketOp.isWrite : SocketOp → Bool
  | .writeResponse _ => true
  | .shutdownSend => false

/-- The sequence of socket operations a session performs, as a function
of the read outcome (main.cpp:62-67 and 70-97): a failed read does
nothing; a parsed request is answered by exactly one write followed by
`shutdown(shutdown_send)` in the write's completion handler. -/
def sessionOps : Option Request → List SocketOp
  | none => []
  | some req => [SocketOp.writeResponse (do_write req), SocketOp.shutdownSend]

/-- Outcome of a run of `main` (main.cpp:158-230): what was printed to
stderr, the process exit status, and whether the server reached the
serving phase. -/
structure MainOutcome where
  stderr : String
  exitCode : Nat
  served : Bool
deriving Repr, DecidableEq

/-- The four acceptor setup steps of the listener constructor
(main.cpp:113-128): open, set reuse_address, bind, listen. Each step's
error code is checked in order and the first failure is thrown. -/
def listenerInit (openErr setOptErr bindErr listenErr : Option String) :
    Except String Unit :=
  match openErr with
  | some e => .error e
  | none =>
    match setOptErr with
    | some e => .error e
    | none =>
      match bindErr with
      | some e => .error e
      | none =>
        match listenErr with
        | some e => .error e
        | none => .ok ()

/-- `main`, main.cpp:158-230: the listener constructor runs inside the
try block; a thrown error is caught, printed as `Fatal Error: ...` and
`main` falls off the end of its body, so the process exit status is 0
in every case. -/
def mainModel (openErr setOptErr bindErr listenErr : Option String) :
    MainOutcome :=
  match listenerInit openErr setOptErr bindErr listenErr with
  | .error e => { stderr := "Fatal Error: " ++ e ++ "\n", exitCode := 0, served := false }
  | .ok _ => { stderr := "", exitCode := 0, served := true }

/-- The three possible dispatch outcomes of the router's if-chain. -/
inductive Route where
  | hello
  | headers
  | notFound
deriving Repr, DecidableEq

/-- The route selected by the if-chain of main.cpp:23-35, by exact
string comparison of the full target. -/
def dispatch (target : String) : Route :=
  if target = "/hello" then .hello
  else if target = "/headers" then .headers
  else .notFound

/-- Right-nested concatenation of the `name: value\n` lines, the shape
the spec describes the `/headers` body in. -/
def headersJoin : List (String × String) → String
  | [] => ""
  | h :: t => (h.1 ++ ": " ++ h.2 ++ "\n") ++ headersJoin t

-- ---------------------------------------------------------------
-- Helper lemmas
-- ---------------------------------------------------------------

theorem headersLoop_eq_append (hs : List (String × String)) :
    ∀ acc, headersLoop acc hs = acc ++ headersJoin hs := by
  induction hs with
  | nil =>
    intro acc
    simp [headersLoop, headersJoin]
  | cons h t ih =>
    intro acc
    simp [headersLoop, headersJoin, ih, String.append_assoc]

theorem headersLoop_eq_join (hs : List (String × String)) :
    headersLoop "" hs = headersJoin hs := by
  have := headersLoop_eq_append hs ""
  simpa using this

theorem newline_mem_headersJoin (h : String × String)
    (t : List (String × String)) : '\n' ∈ (headersJoin (h :: t)).data := by
  show '\n' ∈ ((h.1 ++ ": " ++ h.2 ++ "\n") ++ headersJoin t).data
  rw [String.data_append]
  apply List.mem_append_left
  rw [String.data_append]
  apply List.mem_append_right
  decide

theorem headersJoin_ne_notFound (hs : List (String × String)) :
    headersJoin hs ≠ "Not Found" := by
  cases hs with
  | nil => decide
  | cons h t =>
    intro heq
    have hmem := newline_mem_headersJoin h t
    rw [heq] at hmem
    revert hmem
    decide

theorem handle_request_headers (req : Request)
    (h : req.target = "/headers") :
    handle_request req = headersJoin req.headers := by
  simp [handle_request, h, headersLoop_eq_join]

theorem handle_request_headers_ne_notFound (req : Request)
    (h : req.target = "/headers") : handle_request req ≠ "Not Found" := by
  rw [handle_request_headers req h]
  exact headersJoin_ne_notFound req.headers

-- ---------------------------------------------------------------
-- Claim theorems
-- ---------------------------------------------------------------

/-- C1: every request whose target is `/hello` gets status 200 and body
exactly `"hello\n"`, whatever its headers (and method and version). -/
theorem hello_route_ok (req : Request) (h : req.target = "/hello") :
    (do_write req).status = 200 ∧ (do_write req).body = "hello\n" := by
  have hb : handle_request req = "hello\n" := by
    simp [handle_request, h]
  constructor
  · show (if handle_request req = "Not Found" then 404 else 200) = 200
    rw [hb]
    decide
  · show handle_request req = "hello\n"
    exact hb

/-- Witness for C1 at a concrete request carrying a header. -/
theorem hello_route_ok_witness :
    (do_write ⟨"GET", "/hello", 11, [("Host", "x")]⟩).status = 200 ∧
    (do_write ⟨"GET", "/hello", 11, [("Host", "x")]⟩).body = "hello\n" :=
  hello_route_ok ⟨"GET", "/hello", 11, [("Host", "x")]⟩ rfl

/-- C2: every request whose target is `/headers` gets status 200 and a
body that is the concatenation of exactly one `name: value\n` line per
header field, in the order of the parsed request; with no headers the
body is empty. -/
theorem headers_route_ok (req : Request) (h : req.target = "/headers") :
    (do_write req).status = 200 ∧
    (do_write req).body = headersJoin req.headers ∧
    (req.headers = [] → (do_write req).body = "") := by
  have hb : handle_request req = headersJoin req.headers :=
    handle_request_headers req h
  have hne : handle_request req ≠ "Not Found" :=
    handle_request_headers_ne_notFound req h
  refine ⟨?_, hb, ?_⟩
  · show (if handle_request req = "Not Found" then 404 else 200) = 200
    simp [hne]
  · intro he
    show handle_request req = ""
    rw [hb, he]
    rfl

/-- Witness for C2 at a concrete request with two headers. -/
theorem headers_route_ok_witness :
    (do_write ⟨"GET", "/headers", 11, [("Host", "a"), ("X-Test", "1")]⟩).status = 200 ∧
    (do_write ⟨"GET", "/headers", 11, [("Host", "a"), ("X-Test", "1")]⟩).body =
      headersJoin [("Host", "a"), ("X-Test", "1")] ∧
    ([("Host", "a"), ("X-Test", "1")] = ([] : List (String × String)) →
      (do_write ⟨"GET", "/headers", 11, [("Host", "a"), ("X-Test", "1")]⟩).body = "") :=
  headers_route_ok ⟨"GET", "/headers", 11, [("Host", "a"), ("X-Test", "1")]⟩ rfl

/-- C3: every request whose target is neither `/hello` nor `/headers`
gets status 404 and the literal body `"Not Found"`. -/
theorem not_found_route (req : Request) (h1 : req.target ≠ "/hello")
    (h2 : req.target ≠ "/headers") :
    (do_write req).status = 404 ∧ (do_write req).body = "Not Found" := by
  have hb : handle_request req = "Not Found" := by
    simp [handle_request, h1, h2]
  refine ⟨?_, hb⟩
  show (if handle_request req = "Not Found" then 404 else 200) = 404
  simp [hb]

/-- Witness for C3 at the concrete target `/nope`. -/
theorem not_found_route_witness :
    (do_write ⟨"GET", "/nope", 11, []⟩).status = 404 ∧
    (do_write ⟨"GET", "/nope", 11, []⟩).body = "Not Found" :=
  not_found_route ⟨"GET", "/nope", 11, []⟩ (by decide) (by decide)

/-- C4 counterexample: a POST to `/hello` is answered with status 200,
which is neither 404 nor 405: the router never inspects the method. -/
theorem non_get_counterexample :
    (do_write ⟨"POST", "/hello", 11, []⟩).status = 200 ∧
    ¬((do_write ⟨"POST", "/hello", 11, []⟩).status = 404 ∨
      (do_write ⟨"POST", "/hello", 11, []⟩).status = 405) := by
  decide

/-- C4 amended: the request method is ignored entirely: changing only
the method of a request leaves the whole response unchanged, so a
non-GET request is answered exactly like the corresponding GET (200 on
the two routes, 404 otherwise), not with a consistent 404/405. -/
theorem method_ignored (req : Request) (m : String) :
    do_write { req with method := m } = do_write req := rfl

/-- C5 counterexample: when bind fails at startup the process prints
the error and never serves, but its exit status is 0, not non-zero:
`main` catches the exception and returns normally. -/
theorem bind_failure_exit_zero :
    (mainModel none none (some "bind: address in use") none).served = false ∧
    (mainModel none none (some "bind: address in use") none).stderr =
      "Fatal Error: bind: address in use\n" ∧
    (mainModel none none (some "bind: address in use") none).exitCode = 0 :=
  ⟨rfl, rfl, rfl⟩

/-- C5 amended: if opening, configuring, binding or listening fails at
startup, the process prints `Fatal Error: ` followed by the error and
terminates without ever serving requests, but with exit status 0. -/
theorem startup_failure_behavior (oe se be le : Option String) (e : String)
    (h : listenerInit oe se be le = .error e) :
    (mainModel oe se be le).served = false ∧
    (mainModel oe se be le).stderr = "Fatal Error: " ++ e ++ "\n" ∧
    (mainModel oe se be le).exitCode = 0 := by
  unfold mainModel
  rw [h]
  exact ⟨rfl, rfl, rfl⟩

/-- Witness for the amended C5 at a concrete listen failure. -/
theorem startup_failure_behavior_witness :
    listenerInit none none none (some "eacces") = .error "eacces" ∧
    (mainModel none none none (some "eacces")).served = false ∧
    (mainModel none none none (some "eacces")).stderr =
      "Fatal Error: " ++ "eacces" ++ "\n" ∧
    (mainModel none none none (some "eacces")).exitCode = 0 :=
  ⟨rfl, startup_failure_behavior none none none (some "eacces") "eacces" rfl⟩

/-- C6: routing matches only the exact literal target string: the
hello (resp. headers) handler is selected exactly when the target
equals `/hello` (resp. `/headers`) character for character; in
particular `/hello/` matches nothing; dispatch is a total function, so
no error is ever raised, and an unmatched target always yields the 404
outcome with body `"Not Found"`. -/
theorem routing_exact (t : String) :
    (dispatch t = Route.hello ↔ t = "/hello") ∧
    (dispatch t = Route.headers ↔ t = "/headers") ∧
    dispatch "/hello/" = Route.notFound ∧
    (∀ req : Request, req.target = t → dispatch t = Route.notFound →
      handle_request req = "Not Found" ∧ (do_write req).status = 404) := by
  refine ⟨?_, ?_, by decide, ?_⟩
  · constructor
    · intro hd
      by_cases h1 : t = "/hello"
      · exact h1
      · by_cases h2 : t = "/headers" <;> simp [dispatch, h1, h2] at hd
    · intro h1
      simp [dispatch, h1]
  · constructor
    · intro hd
      by_cases h1 : t = "/hello"
      · simp [dispatch, h1] at hd
      · by_cases h2 : t = "/headers"
        · exact h2
        · simp [dispatch, h1, h2] at hd
    · intro h2
      by_cases h1 : t = "/hello"
      · rw [h1] at h2
        exact absurd h2 (by decide)
      · simp [dispatch, h1, h2]
  · intro req hrt hd
    by_cases h1 : t = "/hello"
    · simp [dispatch, h1] at hd
    · by_cases h2 : t = "/headers"
      · simp [dispatch, h1, h2] at hd
      · have hb : handle_request req = "Not Found" := by
          simp [handle_request, hrt, h1, h2]
        refine ⟨hb, ?_⟩
        show (if handle_request req = "Not Found" then 404 else 200) = 404
        simp [hb]

/-- Witness for C6 at the concrete target `/hello/`. -/
theorem routing_exact_witness :
    dispatch "/hello/" = Route.notFound ∧
    handle_request ⟨"GET", "/hello/", 11, []⟩ = "Not Found" ∧
    (do_write ⟨"GET", "/hello/", 11, []⟩).status = 404 := by
  have h := routing_exact "/hello/"
  exact ⟨h.2.2.1, h.2.2.2 ⟨"GET", "/hello/", 11, []⟩ rfl h.2.2.1⟩

/-- C7 counterexample: a parsed HTTP/1.0 request (version 10, which
the parser accepts) has keep-alive disabled, yet its serialized
response carries no `Connection: close` header: `keep_alive(false)`
inserts the close token only for version 11 and above, and for
HTTP/1.0 closing is the default. -/
theorem connection_close_http10_counterexample :
    (do_write ⟨"GET", "/hello", 10, []⟩).keep_alive = false ∧
    ("Connection", "close") ∉
      serializedHeaders (do_write ⟨"GET", "/hello", 10, []⟩) := by
  decide

/-- C7 amended: for every parsed request the session's response has
keep-alive disabled; the serialized response carries `Connection:
close` when the request's version is HTTP/1.1 (11 or above), while for
an HTTP/1.0 request no Connection header is emitted at all (closing
is the default there); and the session performs exactly one response
write, followed by shutting the socket's send half down as its last
socket operation, so a single connection never receives a second
response. -/
theorem connection_discipline (req : Request) :
    (do_write req).keep_alive = false ∧
    (11 ≤ req.version →
      ("Connection", "close") ∈ serializedHeaders (do_write req)) ∧
    (req.version < 11 →
      ∀ v, ("Connection", v) ∉ serializedHeaders (do_write req)) ∧
    sessionOps (some req) =
      [SocketOp.writeResponse (do_write req), SocketOp.shutdownSend] ∧
    ((sessionOps (some req)).filter SocketOp.isWrite).length = 1 := by
  refine ⟨?_, ?_, ?_, rfl, rfl⟩
  · simp [do_write]
  · intro hv
    simp [serializedHeaders, connectionField, do_write, hv]
  · intro hv v
    have h11 : ¬ 11 ≤ req.version := by omega
    simp [serializedHeaders, connectionField, do_write, h11]

/-- Witness for the amended C7 at a concrete HTTP/1.1 request. -/
theorem connection_discipline_witness :
    (do_write ⟨"GET", "/hello", 11, []⟩).keep_alive = false ∧
    ("Connection", "close") ∈
      serializedHeaders (do_write ⟨"GET", "/hello", 11, []⟩) ∧
    sessionOps (some ⟨"GET", "/hello", 11, []⟩) =
      [SocketOp.writeResponse (do_write ⟨"GET", "/hello", 11, []⟩),
       SocketOp.shutdownSend] ∧
    ((sessionOps (some ⟨"GET", "/hello", 11, []⟩)).filter
      SocketOp.isWrite).length = 1 := by
  have h := connection_discipline ⟨"GET", "/hello", 11, []⟩
  exact ⟨h.1, h.2.1 (by decide), h.2.2.2⟩

/-- C8: request handling is deterministic and pure: equal parsed
requests give equal bodies from `handle_request` and equal response
status and body from the session. -/
theorem handlers_deterministic (r1 r2 : Request) (h : r1 = r2) :
    handle_request r1 = handle_request r2 ∧
    (do_write r1).status = (do_write r2).status ∧
    (do_write r1).body = (do_write r2).body := by
  subst h
  exact ⟨rfl, rfl, rfl⟩

/-- Witness for C8 at two equal concrete `/hello` requests. -/
theorem handlers_deterministic_witness :
    handle_request ⟨"GET", "/hello", 11, [("K", "v")]⟩ =
      handle_request ⟨"GET", "/hello", 11, [("K", "v")]⟩ ∧
    (do_write ⟨"GET", "/hello", 11, [("K", "v")]⟩).status =
      (do_write ⟨"GET", "/hello", 11, [("K", "v")]⟩).status ∧
    (do_write ⟨"GET", "/hello", 11, [("K", "v")]⟩).body =
      (do_write ⟨"GET", "/hello", 11, [("K", "v")]⟩).body :=
  handlers_deterministic ⟨"GET", "/hello", 11, [("K", "v")]⟩
    ⟨"GET", "/hello", 11, [("K", "v")]⟩ rfl

/-- C9: the session sets status 404 exactly when `handle_request`
returned the string `"Not Found"`; the body of a `/headers` request is
a concatenation of newline-terminated lines and never equals
`"Not Found"`, so such a request is always answered 200. -/
theorem status_404_iff_body_notFound (req : Request) :
    ((do_write req).status = 404 ↔ handle_request req = "Not Found") ∧
    (req.target = "/headers" → (do_write req).status = 200) := by
  constructor
  · show (if handle_request req = "Not Found" then 404 else 200) = 404 ↔
      handle_request req = "Not Found"
    by_cases hb : handle_request req = "Not Found" <;> simp [hb]
  · intro h
    have hne := handle_request_headers_ne_notFound req h
    show (if handle_request req = "Not Found" then 404 else 200) = 200
    simp [hne]

/-- Witness for C9 at a concrete `/headers` request. -/
theorem status_404_iff_body_notFound_witness :
    ((do_write ⟨"GET", "/headers", 11, [("A", "b")]⟩).status = 404 ↔
      handle_request ⟨"GET", "/headers", 11, [("A", "b")]⟩ = "Not Found") ∧
    (do_write ⟨"GET", "/headers", 11, [("A", "b")]⟩).status = 200 :=
  ⟨(status_404_iff_body_notFound ⟨"GET", "/headers", 11, [("A", "b")]⟩).1,
   (status_404_iff_body_notFound ⟨"GET", "/headers", 11, [("A", "b")]⟩).2 rfl⟩

/-- C10: the query string is not stripped before routing: any request
whose target contains a `?` matches neither `/hello` nor `/headers`,
so it is answered 404 with body `"Not Found"`. -/
theorem query_not_stripped (req : Request) (h : '?' ∈ req.target.data) :
    handle_request req = "Not Found" ∧ (do_write req).status = 404 := by
  have h1 : req.target ≠ "/hello" := by
    intro he
    rw [he] at h
    revert h
    decide
  have h2 : req.target ≠ "/headers" := by
    intro he
    rw [he] at h
    revert h
    decide
  have hb : handle_request req = "Not Found" := by
    simp [handle_request, h1, h2]
  refine ⟨hb, ?_⟩
  show (if handle_request req = "Not Found" then 404 else 200) = 404
  simp [hb]

/-- Witness for C10 at the concrete target `/hello?x=1`. -/
theorem query_not_stripped_witness :
    ('?' ∈ ("/hello?x=1" : String).data) ∧
    handle_request ⟨"GET", "/hello?x=1", 11, []⟩ = "Not Found" ∧
    (do_write ⟨"GET", "/hello?x=1", 11, []⟩).status = 404 :=
  ⟨by decide, query_not_stripped ⟨"GET", "/hello?x=1", 11, []⟩ (by decide)⟩
